import Mathlib

/-!
Shallow embedding of `am-franchise-calc.py`, a single-file franchise payment
calculator over bitcoind block data.

Modelling conventions:
- Python floats are modelled as exact rationals (`ℚ`); the one operation that
  leaves the rationals, the cube root in `get_btcusd`, is modelled over `ℝ`.
- The chain-data collaborator is a map from block heights (0 .. blockcount)
  to block records; the script reads only the `difficulty` and `time` fields.
- Fallible paths (a block-hash lookup at a height where no block exists)
  return `Option`.
-/

/-- A block record as read from the chain collaborator; the script uses only
the `time` and `difficulty` fields (`b['time']`, `b['difficulty']`). -/
structure Block where
  time : ℤ
  difficulty : ℚ
deriving DecidableEq

/-- The chain-data collaborator: a current height `blockcount` and the block
record at each existing height `0 .. blockcount`. -/
structure Chain where
  blockcount : ℕ
  blocks : ℕ → Block

/-- The calculator state after `__init__`: constructor arguments plus the
fields fetched from the chain (`blockcount`, `lastblock`). Note the script is
constructed as `PpsCalculator(pps_rate, ghps, e, y)`: the field `y` holds the
expense factor and `btcusd` holds the exchange rate. -/
structure PpsCalculator where
  pps_rate : ℚ
  gh : ℚ
  y : ℚ
  btcusd : ℚ
  chain : Chain
  lastblock : Block

/-- `PpsCalculator.__init__` with an already-resolved positive exchange rate:
stores the arguments and sets `lastblock` to the block at the current height
(`self.lastblock = self.getblock(self.blockcount)`, which at that point reads
the block at height `blockcount`). -/
def PpsCalculator.init (chain : Chain) (pps_rate gh y btcusd : ℚ) : PpsCalculator :=
  ⟨pps_rate, gh, y, btcusd, chain, chain.blocks chain.blockcount⟩

/-- `btc_per_second_at_diff`: `GHPS * BLOCK_REWARD / float(DIFF1 * diff)` with
`DIFF1 = 2**32`, `GHPS = 1e9`, `BLOCK_REWARD = 25`. -/
def btc_per_second_at_diff (diff : ℚ) : ℚ :=
  1000000000 * 25 / (4294967296 * diff)

/-- `getblock`: heights above the tip are clamped to `lastblock`; for an
existing height `0 ≤ h ≤ blockcount` the record is fetched through
`getblockhash`; a negative height is passed to `getblockhash` unclamped,
where no block hash exists (the RPC errors), modelled as `none`. -/
def PpsCalculator.getblock (c : PpsCalculator) (block_nr : ℤ) : Option Block :=
  if (c.chain.blockcount : ℤ) < block_nr then some c.lastblock
  else if 0 ≤ block_nr then some (c.chain.blocks block_nr.toNat)
  else none

/-- Line 81 of the script: `if period == -1: period = (self.blockcount / 2016) - 1`
(Python 2 integer division; `blockcount` is a non-negative integer). -/
def resolve_period (blockcount : ℕ) (period : ℤ) : ℤ :=
  if period = -1 then (blockcount : ℤ) / 2016 - 1 else period

/-- The figures printed by `get_franchise_payment`. -/
structure Result where
  period : ℤ
  diff : ℚ
  dtime : ℤ
  gross_pps100 : ℚ
  expenses_usd : ℚ
  expenses_btc : ℚ
  net_pps100 : ℚ
  franchise_per_gh : ℚ
  franchise_total : ℚ
deriving DecidableEq

/-- Lines 86-104 of `get_franchise_payment`: the arithmetic on the two fetched
boundary blocks. -/
def compute_from_blocks (pps_rate gh y btcusd : ℚ) (period : ℤ) (b0 b1 : Block) : Result :=
  let diff := b0.difficulty
  let t0 := b0.time
  let t1 := b1.time
  let dtime := t1 - t0
  let bpgs := btc_per_second_at_diff diff
  let gross_pps100 := bpgs * (dtime : ℚ)
  let my_pps := pps_rate / 100
  let expenses_usd := (dtime : ℚ) * y
  let expenses_btc := expenses_usd / btcusd
  let net_pps100 := gross_pps100 - expenses_btc
  ⟨period, diff, dtime, gross_pps100, expenses_usd, expenses_btc, net_pps100,
   my_pps * net_pps100, my_pps * net_pps100 * gh⟩

/-- `get_franchise_payment`: resolve the period, fetch the two boundary
blocks (heights `period*2016` and `period*2016 + 2016`), then compute. -/
def PpsCalculator.get_franchise_payment (c : PpsCalculator) (period : ℤ) : Option Result :=
  let period := resolve_period c.chain.blockcount period
  let block0 := period * 2016
  let block1 := block0 + 2016
  (c.getblock block0).bind fun b0 =>
    (c.getblock block1).map fun b1 =>
      compute_from_blocks c.pps_rate c.gh c.y c.btcusd period b0 b1

/-- `get_btcusd`: the geometric mean of the three weighted prices,
`(r30d * r7d * r24h)**(1/3.0)`. -/
noncomputable def get_btcusd (r30d r7d r24h : ℝ) : ℝ :=
  (r30d * r7d * r24h) ^ ((1 : ℝ) / 3)

/-- Lines 58-59 of `__init__`: `self.btcusd = btcusd; if btcusd <= 0:
self.btcusd = self.get_btcusd()`. -/
noncomputable def init_btcusd (btcusd r30d r7d r24h : ℝ) : ℝ :=
  if btcusd ≤ 0 then get_btcusd r30d r7d r24h else btcusd

/-! CLI model: `getopt.getopt(sys.argv[1:], "hp:c:g:e:y:")`, Python float/int
conversion of option values, and the `__main__` option loop. -/

/-- Options of the optstring `"hp:c:g:e:y:"` that take a value. -/
def optTakesArg (c : Char) : Bool :=
  c = 'p' ∨ c = 'c' ∨ c = 'g' ∨ c = 'e' ∨ c = 'y'

/-- Options of the optstring `"hp:c:g:e:y:"` that take no value. -/
def optIsFlag (c : Char) : Bool :=
  c = 'h'

/-- Outcome of scanning one `-xyz` cluster of short options. -/
inductive ClusterResult where
  | done (opts : List (Char × String))
  | needsValue (opts : List (Char × String)) (c : Char)
  | err
deriving DecidableEq

/-- `getopt.do_shorts` on the characters after the dash: flags accumulate and
scanning continues; an option that takes a value consumes the rest of the
cluster, or requests the next argument when the cluster ends; an unknown
option character raises `GetoptError`. -/
def parseCluster : List Char → ClusterResult
  | [] => ClusterResult.done []
  | c :: cs =>
    if optIsFlag c then
      match parseCluster cs with
      | ClusterResult.done opts => ClusterResult.done ((c, "") :: opts)
      | ClusterResult.needsValue opts d => ClusterResult.needsValue ((c, "") :: opts) d
      | ClusterResult.err => ClusterResult.err
    else if optTakesArg c then
      if cs.isEmpty then ClusterResult.needsValue [] c
      else ClusterResult.done [(c, String.mk cs)]
    else ClusterResult.err

/-- `getopt.getopt(args, "hp:c:g:e:y:")`: scan arguments while they start
with a dash; `"-"` and the first non-option stop the scan, `"--"` is consumed
and stops it; a `GetoptError` (unknown option, or a missing value at the end
of the argument list) is `Except.error`. Positional arguments are dropped as
the script ignores them. -/
def getopt : List String → Except Unit (List (Char × String))
  | [] => Except.ok []
  | a :: rest =>
    match a.toList with
    | '-' :: c :: cs =>
      if c = '-' ∧ cs = [] then Except.ok []
      else
        match parseCluster (c :: cs) with
        | ClusterResult.err => Except.error ()
        | ClusterResult.done opts => (getopt rest).map fun more => opts ++ more
        | ClusterResult.needsValue opts d =>
          match rest with
          | [] => Except.error ()
          | v :: rest2 => (getopt rest2).map fun more => opts ++ (d, v) :: more
    | _ => Except.ok []

/-- Numeric value of a digit string, most significant first. -/
def digitsVal (ds : List Char) : ℕ :=
  ds.foldl (fun n d => 10 * n + (d.toNat - 48)) 0

/-- Every character is a decimal digit. -/
def allDigits (ds : List Char) : Bool :=
  ds.all fun d => d.isDigit

/-- Strip an optional leading sign, returned as a rational factor. -/
def parseSignQ : List Char → ℚ × List Char
  | '-' :: cs => (-1, cs)
  | '+' :: cs => (1, cs)
  | cs => (1, cs)

/-- Strip an optional leading sign, returned as an integer factor. -/
def parseSignZ : List Char → ℤ × List Char
  | '-' :: cs => (-1, cs)
  | '+' :: cs => (1, cs)
  | cs => (1, cs)

/-- Python `float(s)` on a decimal literal, as an exact rational: optional
sign, integer and/or fractional digits around an optional point, optional
signed exponent. Anything else (such as `float("abc")`) raises `ValueError`,
modelled as `none`. -/
def pyFloat? (s : String) : Option ℚ :=
  let (sign, cs) := parseSignQ s.toList
  let (mant, rest) := cs.span fun c => ¬ (c = 'e' ∨ c = 'E')
  let mantVal : Option ℚ :=
    match mant.splitOn '.' with
    | [ip] =>
      if ip ≠ [] ∧ allDigits ip then some (digitsVal ip : ℚ) else none
    | [ip, fp] =>
      if (ip ≠ [] ∨ fp ≠ []) ∧ allDigits ip ∧ allDigits fp then
        some ((digitsVal ip : ℚ) + (digitsVal fp : ℚ) / 10 ^ fp.length)
      else none
    | _ => none
  match mantVal, rest with
  | some m, [] => some (sign * m)
  | some m, _ :: expCs =>
    let (esign, eds) := parseSignZ expCs
    if eds ≠ [] ∧ allDigits eds then
      some (sign * m * (10 : ℚ) ^ (esign * (digitsVal eds : ℤ)))
    else none
  | none, _ => none

/-- Python `int(s)`: optional sign followed by decimal digits; anything else
raises `ValueError`, modelled as `none`. -/
def pyInt? (s : String) : Option ℤ :=
  let (sign, cs) := parseSignZ s.toList
  if cs ≠ [] ∧ allDigits cs then some (sign * (digitsVal cs : ℤ)) else none

/-- How a run of `__main__` ends before the calculator is built: the usage
text with exit status 2, an uncaught `ValueError` from a numeric conversion,
or a run of the calculator with the parsed parameters. -/
inductive MainOutcome where
  | usageExit2
  | valueErrorCrash
  | run (pps_rate : ℚ) (diff_cycle : ℤ) (ghps : ℚ) (e : ℚ) (y : ℚ)
deriving DecidableEq

/-- The `for opt, arg in opts` loop of `__main__`: `-h` prints usage and
exits 2; the value options convert their argument with `float`/`int`, an
uncaught `ValueError` on a malformed value. -/
def applyOpts : List (Char × String) → ℚ → ℤ → ℚ → ℚ → ℚ → MainOutcome
  | [], pps_rate, diff_cycle, ghps, e, y => MainOutcome.run pps_rate diff_cycle ghps e y
  | (opt, arg) :: opts, pps_rate, diff_cycle, ghps, e, y =>
    if opt = 'h' then MainOutcome.usageExit2
    else if opt = 'p' then
      match pyFloat? arg with
      | none => MainOutcome.valueErrorCrash
      | some v => applyOpts opts v diff_cycle ghps e y
    else if opt = 'c' then
      match pyInt? arg with
      | none => MainOutcome.valueErrorCrash
      | some v => applyOpts opts pps_rate v ghps e y
    else if opt = 'g' then
      match pyFloat? arg with
      | none => MainOutcome.valueErrorCrash
      | some v => applyOpts opts pps_rate diff_cycle v e y
    else if opt = 'e' then
      match pyFloat? arg with
      | none => MainOutcome.valueErrorCrash
      | some v => applyOpts opts pps_rate diff_cycle ghps v y
    else if opt = 'y' then
      match pyFloat? arg with
      | none => MainOutcome.valueErrorCrash
      | some v => applyOpts opts pps_rate diff_cycle ghps e v
    else applyOpts opts pps_rate diff_cycle ghps e y

/-- `__main__` up to the construction of the calculator: a `GetoptError`
prints usage and exits 2; otherwise the option loop runs over the defaults
`pps_rate = 80`, `diff_cycle = -1`, `ghps = 10`, `e = 4.17e-7`, `y = 0`. -/
def main_outcome (argv : List String) : MainOutcome :=
  match getopt argv with
  | Except.error _ => MainOutcome.usageExit2
  | Except.ok opts => applyOpts opts 80 (-1) 10 (417 / 1000000000) 0

/-! Concrete fixtures used to instantiate the theorems. -/

/-- A small concrete chain: 4032 blocks, one second per block, difficulty 1. -/
def wChain : Chain :=
  ⟨4032, fun h => ⟨(h : ℤ), 1⟩⟩

/-- A calculator over `wChain` with the default parameters and an agreed
exchange rate of 135 USD/BTC. -/
def wCalc : PpsCalculator :=
  PpsCalculator.init wChain 80 10 (417 / 1000000000) 135

/-- The boundary blocks of period 0 of `wChain`. -/
def wB0 : Block := ⟨0, 1⟩

/-- The boundary blocks of period 0 of `wChain`. -/
def wB1 : Block := ⟨2016, 1⟩

/-- The result of the payment computation on period 0 of `wChain`. -/
def wR : Result :=
  compute_from_blocks 80 10 (417 / 1000000000) 135 0 wB0 wB1

/-- The chain of the end-to-end example of the spec: difficulty 1e12, period 0
lasting from timestamp 0 to timestamp 1209600 (14 days). -/
def exChain : Chain :=
  ⟨2016, fun h => ⟨if h = 0 then 0 else 1209600, 1000000000000⟩⟩

/-- The calculator of the end-to-end example: ppsRate 80, ghps 2350,
expense factor 4.17e-7, exchange rate 135.42. -/
def exCalc : PpsCalculator :=
  PpsCalculator.init exChain 80 2350 (417 / 1000000000) (13542 / 100)

/-- The result of the end-to-end example computation. -/
def exResult : Result :=
  compute_from_blocks 80 2350 (417 / 1000000000) (13542 / 100) 0
    ⟨0, 1000000000000⟩ ⟨1209600, 1000000000000⟩

/-- A result with expenses exceeding the gross mining income: difficulty 1e12,
1000 seconds, expense factor 1 USD/sec/GH, exchange rate 1. -/
def wNegR : Result :=
  compute_from_blocks 80 10 1 1 0 ⟨0, 1000000000000⟩ ⟨1000, 1000000000000⟩

/-! Theorems for the claims. -/

/-- C1: for boundary blocks `block0`, `block1` and positive ppsRate, ghps,
expenseFactor and exchangeRate, `get_franchise_payment` computes
grossIncomeBtc = incomeRatePerSecond(block0.difficulty) × (block1.timestamp −
block0.timestamp), expensesUsd = duration × expenseFactor, expensesBtc =
expensesUsd / exchangeRate, netIncomeBtc = grossIncomeBtc − expensesBtc, and
franchisePaymentTotal = (ppsRate / 100) × netIncomeBtc × ghps. -/
theorem get_franchise_payment_formulas (c : PpsCalculator) (p : ℤ) (b0 b1 : Block)
    (r : Result)
    (hpps : 0 < c.pps_rate) (hgh : 0 < c.gh) (he : 0 < c.y) (hy : 0 < c.btcusd)
    (h0 : c.getblock (resolve_period c.chain.blockcount p * 2016) = some b0)
    (h1 : c.getblock (resolve_period c.chain.blockcount p * 2016 + 2016) = some b1)
    (hr : c.get_franchise_payment p = some r) :
    r.gross_pps100 = btc_per_second_at_diff b0.difficulty * ((b1.time - b0.time : ℤ) : ℚ) ∧
    r.expenses_usd = ((b1.time - b0.time : ℤ) : ℚ) * c.y ∧
    r.expenses_btc = r.expenses_usd / c.btcusd ∧
    r.net_pps100 = r.gross_pps100 - r.expenses_btc ∧
    r.franchise_total = c.pps_rate / 100 * r.net_pps100 * c.gh := by
  simp only [PpsCalculator.get_franchise_payment, h0, h1, Option.some_bind,
    Option.map_some', Option.some.injEq] at hr
  subst hr
  simp [compute_from_blocks]

unseal Rat.mul Rat.inv Rat.add Rat.sub in
/-- Witness for C1 at the concrete calculator `wCalc`, period 0. -/
theorem get_franchise_payment_formulas_witness :
    0 < wCalc.pps_rate ∧ 0 < wCalc.gh ∧ 0 < wCalc.y ∧ 0 < wCalc.btcusd ∧
    wCalc.getblock (resolve_period wCalc.chain.blockcount 0 * 2016) = some wB0 ∧
    wCalc.getblock (resolve_period wCalc.chain.blockcount 0 * 2016 + 2016) = some wB1 ∧
    wCalc.get_franchise_payment 0 = some wR ∧
    (wR.gross_pps100 = btc_per_second_at_diff wB0.difficulty * ((wB1.time - wB0.time : ℤ) : ℚ) ∧
     wR.expenses_usd = ((wB1.time - wB0.time : ℤ) : ℚ) * wCalc.y ∧
     wR.expenses_btc = wR.expenses_usd / wCalc.btcusd ∧
     wR.net_pps100 = wR.gross_pps100 - wR.expenses_btc ∧
     wR.franchise_total = wCalc.pps_rate / 100 * wR.net_pps100 * wCalc.gh) :=
  ⟨by decide, by decide, by decide, by decide, by decide, by decide, by decide,
   get_franchise_payment_formulas wCalc 0 wB0 wB1 wR (by decide) (by decide)
     (by decide) (by decide) (by decide) (by decide) (by decide)⟩

/-- C2: for every difficulty d > 0, `btc_per_second_at_diff d` equals
1e9 × 25 / (2^32 × d); the equality is exact over the rationals, hence in
particular within any relative tolerance. -/
theorem btc_per_second_at_diff_formula (d : ℚ) (hd : 0 < d) :
    btc_per_second_at_diff d = 1000000000 * 25 / (2 ^ 32 * d) := by
  unfold btc_per_second_at_diff
  norm_num

unseal Rat.mul Rat.inv Rat.add Rat.sub in
/-- Witness for C2 at d = 1. -/
theorem btc_per_second_at_diff_formula_witness :
    (0 : ℚ) < 1 ∧ btc_per_second_at_diff 1 = 1000000000 * 25 / (2 ^ 32 * 1) :=
  ⟨by decide, btc_per_second_at_diff_formula 1 (by decide)⟩

/-- C3: on the sentinel period -1, the resolved period is
floor(blockcount / 2016) − 1 for every non-negative blockcount; in particular
blockcount 4032 resolves to period 1 and blockcount 4031 to period 0. -/
theorem resolve_period_sentinel (h : ℕ) :
    resolve_period h (-1) = ((h / 2016 : ℕ) : ℤ) - 1 ∧
    resolve_period 4032 (-1) = 1 ∧ resolve_period 4031 (-1) = 0 := by
  refine ⟨?_, by decide, by decide⟩
  unfold resolve_period
  rw [if_pos rfl]
  omega

/-- C4: requesting a block at a height strictly above the current chain
height returns the same record as requesting the current height. -/
theorem getblock_clamps_to_tip (chain : Chain) (pps gh y btcusd : ℚ) (h : ℤ)
    (hh : (chain.blockcount : ℤ) < h) :
    (PpsCalculator.init chain pps gh y btcusd).getblock h =
      (PpsCalculator.init chain pps gh y btcusd).getblock (chain.blockcount : ℤ) := by
  unfold PpsCalculator.getblock PpsCalculator.init
  simp [hh, lt_irrefl]

unseal Rat.mul Rat.inv Rat.add Rat.sub in
/-- Witness for C4: height 99999 over the 4032-block chain. -/
theorem getblock_clamps_to_tip_witness :
    ((4032 : ℕ) : ℤ) < 99999 ∧
    (PpsCalculator.init wChain 80 10 (417 / 1000000000) 135).getblock 99999 =
      (PpsCalculator.init wChain 80 10 (417 / 1000000000) 135).getblock ((4032 : ℕ) : ℤ) :=
  ⟨by decide, getblock_clamps_to_tip wChain 80 10 (417 / 1000000000) 135 99999 (by decide)⟩

unseal Rat.mul Rat.inv Rat.add Rat.sub in
/-- C5 counterexample: at the inputs of the end-to-end example (difficulty
1e12, duration 1209600 s, expense factor 4.17e-7, exchange rate 135.42,
ppsRate 80, ghps 2350) the computed netIncomeBtc is strictly negative, so it
is not approximately 0.0000066 as the claim states. -/
theorem example_net_income_is_negative :
    exCalc.get_franchise_payment 0 = some exResult ∧ exResult.net_pps100 < 0 := by
  constructor
  · decide
  · decide

unseal Rat.mul Rat.inv Rat.add Rat.sub in
/-- C5 amended: at those inputs grossIncomeBtc equals
1e9 × 25 × 1209600 / (2^32 × 1e12) ≈ 7.0408e-6 (not 7.036e-6), expensesUsd =
0.5044032, expensesBtc ≈ 0.0037247, netIncomeBtc ≈ −0.0037177 (not
+0.0000066), and franchisePaymentTotal = (80/100) × netIncomeBtc × 2350
≈ −6.9893. -/
theorem example_end_to_end :
    exCalc.get_franchise_payment 0 = some exResult ∧
    exResult.gross_pps100 = 1000000000 * 25 * 1209600 / (2 ^ 32 * 1000000000000) ∧
    |exResult.gross_pps100 - 70408 / 10000000000| < 1 / 10000000000 ∧
    exResult.expenses_usd = 5044032 / 10000000 ∧
    |exResult.expenses_btc - 37247 / 10000000| < 1 / 10000000 ∧
    |exResult.net_pps100 - (-37177 / 10000000)| < 1 / 10000000 ∧
    exResult.franchise_total = 80 / 100 * exResult.net_pps100 * 2350 ∧
    |exResult.franchise_total - (-69893 / 10000)| < 1 / 1000 := by
  refine ⟨by decide, by decide, by decide, by decide, by decide, by decide,
    by decide, by decide⟩

/-- C6: whenever the expenses in BTC exceed the gross mining income (with
positive ppsRate and ghps), the computation still completes, and both
netIncomeBtc and franchisePaymentTotal are strictly negative. -/
theorem negative_net_income_reported (pps gh y btcusd : ℚ) (p : ℤ) (b0 b1 : Block)
    (r : Result)
    (hr : compute_from_blocks pps gh y btcusd p b0 b1 = r)
    (hpps : 0 < pps) (hgh : 0 < gh)
    (hneg : r.gross_pps100 < r.expenses_btc) :
    r.net_pps100 < 0 ∧ r.franchise_total < 0 := by
  subst hr
  simp only [compute_from_blocks] at hneg ⊢
  have hnet : btc_per_second_at_diff b0.difficulty * ((b1.time - b0.time : ℤ) : ℚ) -
      ((b1.time - b0.time : ℤ) : ℚ) * y / btcusd < 0 := sub_neg.mpr hneg
  refine ⟨hnet, ?_⟩
  exact mul_neg_of_neg_of_pos (mul_neg_of_pos_of_neg (by positivity) hnet) hgh

unseal Rat.mul Rat.inv Rat.add Rat.sub in
/-- Witness for C6: difficulty 1e12 over 1000 seconds with expense factor 1
USD/sec/GH at 1 USD/BTC. -/
theorem negative_net_income_reported_witness :
    compute_from_blocks 80 10 1 1 0 ⟨0, 1000000000000⟩ ⟨1000, 1000000000000⟩ = wNegR ∧
    (0 : ℚ) < 80 ∧ (0 : ℚ) < 10 ∧ wNegR.gross_pps100 < wNegR.expenses_btc ∧
    (wNegR.net_pps100 < 0 ∧ wNegR.franchise_total < 0) :=
  ⟨rfl, by decide, by decide, by decide,
   negative_net_income_reported 80 10 1 1 0 ⟨0, 1000000000000⟩ ⟨1000, 1000000000000⟩
     wNegR rfl (by decide) (by decide) (by decide)⟩

unseal Rat.mul Rat.inv Rat.add Rat.sub in
/-- C7 counterexample: a negative period index other than the sentinel makes
the run fail. On the 4032-block chain, period -2 asks `getblock` for height
-4032; the script passes the negative height to `getblockhash` unclamped,
where no block exists, and `get_franchise_payment` does not complete. -/
theorem negative_period_fails :
    wCalc.get_franchise_payment (-2) = none := by decide

/-- C7 amended: every period index other than the sentinel is used as given;
for every non-negative period index both boundary heights are total to fetch
(clamping covers heights beyond the tip), but negative indices produce
negative heights that the fetch does not clamp. -/
theorem nonneg_period_total (chain : Chain) (pps gh y btcusd : ℚ) (p : ℤ)
    (hp : 0 ≤ p) :
    resolve_period chain.blockcount p = p ∧
    ((PpsCalculator.init chain pps gh y btcusd).get_franchise_payment p).isSome = true := by
  have hp1 : p ≠ -1 := by omega
  have hres : resolve_period chain.blockcount p = p := by
    unfold resolve_period
    rw [if_neg hp1]
  refine ⟨hres, ?_⟩
  have key : ∀ n : ℤ, 0 ≤ n →
      ((PpsCalculator.init chain pps gh y btcusd).getblock n).isSome = true := by
    intro n hn
    unfold PpsCalculator.getblock
    rcases lt_or_le ((PpsCalculator.init chain pps gh y btcusd).chain.blockcount : ℤ) n
      with h | h
    · rw [if_pos h]
      rfl
    · rw [if_neg (not_lt.mpr h), if_pos hn]
      rfl
  have h0 := key (p * 2016) (by positivity)
  have h1 := key (p * 2016 + 2016) (by positivity)
  rw [Option.isSome_iff_exists] at h0 h1
  obtain ⟨b0, hb0⟩ := h0
  obtain ⟨b1, hb1⟩ := h1
  simp only [PpsCalculator.get_franchise_payment, PpsCalculator.init] at hb0 hb1 ⊢
  simp only [PpsCalculator.init] at hres
  rw [hres, hb0, hb1]
  simp

unseal Rat.mul Rat.inv Rat.add Rat.sub in
/-- Witness for C7 amended: period 5 on the 4032-block chain (both boundary
heights are beyond the tip and clamp). -/
theorem nonneg_period_total_witness :
    (0 : ℤ) ≤ 5 ∧
    (resolve_period wChain.blockcount 5 = 5 ∧
     ((PpsCalculator.init wChain 80 10 (417 / 1000000000) 135).get_franchise_payment 5).isSome
       = true) :=
  ⟨by decide, nonneg_period_total wChain 80 10 (417 / 1000000000) 135 5 (by decide)⟩

unseal Rat.mul Rat.inv Rat.add Rat.sub in
/-- C8 counterexample: the malformed argument value `-p abc` does not print
usage and exit 2; `float("abc")` raises an uncaught `ValueError`. -/
theorem malformed_value_crashes :
    main_outcome ["-p", "abc"] = MainOutcome.valueErrorCrash ∧
    MainOutcome.valueErrorCrash ≠ MainOutcome.usageExit2 := by
  constructor
  · rfl
  · decide

/-- C8 amended: an invalid flag (any `GetoptError`) prints usage and exits
with status 2, but a malformed argument value raises an uncaught
`ValueError` that terminates the program without the usage text. -/
theorem cli_error_handling (argv : List String) (v : String)
    (hbad : getopt argv = Except.error ()) (hv : pyFloat? v = none) :
    main_outcome argv = MainOutcome.usageExit2 ∧
    main_outcome ["-p", v] = MainOutcome.valueErrorCrash := by
  constructor
  · unfold main_outcome
    rw [hbad]
  · have hg : getopt ["-p", v] = Except.ok [('p', v)] := rfl
    unfold main_outcome
    rw [hg]
    show applyOpts [('p', v)] 80 (-1) 10 (417 / 1000000000) 0 = MainOutcome.valueErrorCrash
    unfold applyOpts
    rw [hv]
    rfl

/-- Witness for C8 amended: the invalid flag `-q` and the malformed value
`abc`. -/
theorem cli_error_handling_witness :
    getopt ["-q"] = Except.error () ∧ pyFloat? "abc" = none ∧
    (main_outcome ["-q"] = MainOutcome.usageExit2 ∧
     main_outcome ["-p", "abc"] = MainOutcome.valueErrorCrash) :=
  ⟨rfl, rfl, cli_error_handling ["-q"] "abc" rfl rfl⟩

/-- C9: the geometric mean of three equal positive rates is that rate, and
the mean is invariant under every permutation of its three inputs. -/
theorem get_btcusd_geometric_mean (a b c : ℝ) (ha : 0 < a) :
    get_btcusd a a a = a ∧
    get_btcusd a b c = get_btcusd a c b ∧
    get_btcusd a b c = get_btcusd b a c ∧
    get_btcusd a b c = get_btcusd b c a ∧
    get_btcusd a b c = get_btcusd c a b ∧
    get_btcusd a b c = get_btcusd c b a := by
  unfold get_btcusd
  refine ⟨?_, ?_, ?_, ?_, ?_, ?_⟩
  · have h3 : a * a * a = a ^ (3 : ℝ) := by
      rw [show (3 : ℝ) = ((3 : ℕ) : ℝ) by norm_num, Real.rpow_natCast]
      ring
    rw [h3, ← Real.rpow_mul ha.le,
      show (3 : ℝ) * (1 / 3) = 1 by norm_num, Real.rpow_one]
  all_goals
    congr 1
    ring

/-- Witness for C9 at the rates 1, 2, 3. -/
theorem get_btcusd_geometric_mean_witness :
    (0 : ℝ) < 1 ∧
    (get_btcusd 1 1 1 = 1 ∧
     get_btcusd 1 2 3 = get_btcusd 1 3 2 ∧
     get_btcusd 1 2 3 = get_btcusd 2 1 3 ∧
     get_btcusd 1 2 3 = get_btcusd 2 3 1 ∧
     get_btcusd 1 2 3 = get_btcusd 3 1 2 ∧
     get_btcusd 1 2 3 = get_btcusd 3 2 1) :=
  ⟨one_pos, get_btcusd_geometric_mean 1 2 3 one_pos⟩

/-- C10: when the constructor receives a non-positive exchange rate and the
price feed returns three strictly positive rates, the derived exchange rate
(their geometric mean) is strictly positive, hence in particular non-zero: the
division `expenses_usd / self.btcusd` never divides by zero. -/
theorem init_btcusd_positive (btcusd r30d r7d r24h : ℝ)
    (hb : btcusd ≤ 0) (h30 : 0 < r30d) (h7 : 0 < r7d) (h24 : 0 < r24h) :
    0 < init_btcusd btcusd r30d r7d r24h ∧ init_btcusd btcusd r30d r7d r24h ≠ 0 := by
  have hpos : 0 < get_btcusd r30d r7d r24h := by
    unfold get_btcusd
    exact Real.rpow_pos_of_pos (mul_pos (mul_pos h30 h7) h24) _
  have heq : init_btcusd btcusd r30d r7d r24h = get_btcusd r30d r7d r24h := by
    unfold init_btcusd
    rw [if_pos hb]
  rw [heq]
  exact ⟨hpos, hpos.ne'⟩

/-- Witness for C10: constructor argument 0 with fetched rates 1, 1, 1. -/
theorem init_btcusd_positive_witness :
    (0 : ℝ) ≤ 0 ∧ (0 : ℝ) < 1 ∧ (0 : ℝ) < 1 ∧ (0 : ℝ) < 1 ∧
    (0 < init_btcusd 0 1 1 1 ∧ init_btcusd 0 1 1 1 ≠ 0) :=
  ⟨le_refl 0, one_pos, one_pos, one_pos,
   init_btcusd_positive 0 1 1 1 (le_refl 0) one_pos one_pos one_pos⟩
